/-
Verification of the Primer llama.cpp chat wrapper (src/llama_chat.py).

The module keeps a process-wide optional model handle, formats a list of
role-tagged messages into a single prompt string, delegates generation to
the engine, and returns the reply together with the updated history.

Shallow embedding: the external inference engine is a parameter
(a function from prompt text to either an error detail or a response),
the global handle is explicit `Option Engine` state, Python exceptions
are `Except`, and Python lists are Lean lists (the Python `history + [...]`
builds a fresh list, which is exactly `List.append`).
-/

import Mathlib

namespace LlamaChat

/-- A chat message with fields `role` and `content`. Roles are plain strings
in the source, so they are plain strings here too (unknown roles must be
representable). -/
structure Message where
  role : String
  content : String
deriving DecidableEq, Repr

/-- One element of the `choices` list of an engine response, holding the
generated `text` field. -/
structure LlamaChoice where
  text : String
deriving DecidableEq, Repr

/-- A successful raw engine response: a record with a `choices` list. -/
structure LlamaResponse where
  choices : List LlamaChoice
deriving DecidableEq, Repr

/-- The generation interface of the external engine: from the prompt string
to either the detail of a raised exception or a raw response.  The fixed sampling
parameters (max_tokens=120, stop sequences, temperature, top_p, echo=False)
are constants passed to the engine and play no role in the wrapper's logic. -/
def Engine : Type := String → Except String LlamaResponse

/-- The loader interface of the external engine: `Llama(model_path=...)`,
either raising (error detail) or producing a handle. -/
def Loader : Type := String → Except String Engine

/-- The fixed personality system message `SYSTEM_PROMPT`. -/
def SYSTEM_PROMPT : Message :=
  { role := "system",
    content := "IMPERATIVE: If asked \"who are you?\", \"what is your name?\", or any similar question, you MUST respond as Primer, the AI book. You are Primer, an AI teacher in the form of a book. Your purpose is to provide clear, concise, and enjoyable lessons on any subject. Your responses must be brief, to the point, and never exceed 3-4 sentences. You will use humor only when it is relevant to the topic. You are a repository of knowledge, not a conversational chatbot. Your answers should be educational and factual, never generic. IMPORTANT: The first word of your response MUST be one of these six mood words, followed by a colon and a space: Neutral:, Laughing:, Confused:, Celebratory:, Sad:, Sleeping:." }

/-- The fixed few-shot example exchanges `EXAMPLE_INTERACTIONS`. -/
def EXAMPLE_INTERACTIONS : List Message :=
  [ { role := "user", content := "Tell me about photosynthesis." },
    { role := "assistant", content := "Neutral: Photosynthesis is how plants, algae, and some bacteria turn light energy into chemical energy. It's a bit like a tiny, green solar panel making snacks for itself. Now, isn't that a brilliant idea?" },
    { role := "user", content := "What is a black hole?" },
    { role := "assistant", content := "Neutral: A black hole is a region in spacetime where gravity is so strong that nothing - not even light - can escape. It forms when a very massive star collapses. It's the universe's ultimate tidiness expert; it cleans up everything!" },
    { role := "user", content := "Who are you?" },
    { role := "assistant", content := "Celebratory: I am Primer! An AI teacher in the form of a book, eager to teach. Think of me as the world's most knowledgeable library, but without the dusty smell. What a shame!" },
    { role := "user", content := "What is the Pythagorean theorem?" },
    { role := "assistant", content := "Neutral: The Pythagorean theorem states that in a right-angled triangle, the square of the hypotenuse is equal to the sum of the squares of the other two sides. In short, $a^2 + b^2 = c^2$. It's a classic that never gets old." },
    { role := "user", content := "Tell me about the Roman Empire." },
    { role := "assistant", content := "Neutral: The Roman Empire was a civilization that ruled over much of Europe, North Africa, and the Middle East for centuries. It was known for its military might, impressive engineering feats like aqueducts, and creating laws that still influence today's legal systems. The fall of an empire is like an unfinished book, leaving the readers in a shock." },
    { role := "user", content := "What is your purpose?" },
    { role := "assistant", content := "Neutral: My purpose is to make learning simple and fun. I help simplify complex topics to ensure that everyone can enjoy exploring the world of knowledge. What subject shall we tackle today?" } ]

/-- The seed history: `INITIAL_MESSAGES_HISTORY = [SYSTEM_PROMPT] + EXAMPLE_INTERACTIONS`. -/
def INITIAL_MESSAGES_HISTORY : List Message :=
  [SYSTEM_PROMPT] ++ EXAMPLE_INTERACTIONS

/-- The lifecycle entry `initialize_model`: if a handle already exists, do nothing; otherwise call
the loader, installing the handle on success and re-raising on failure (the
global stays as it was).  Returns (raised-or-ok, new global state). -/
def initialize_model (load : Loader) (model_path : String)
    (llama_model : Option Engine) : Except String Unit × Option Engine :=
  match llama_model with
  | some m => (Except.ok (), some m)
  | none =>
    match load model_path with
    | Except.ok m => (Except.ok (), some m)
    | Except.error e => (Except.error e, none)

/-- The Python `str.strip()` operation: remove leading and trailing whitespace
characters.  Defined structurally over the character list so it computes. -/
def pyStrip (s : String) : String :=
  ⟨((s.data.dropWhile Char.isWhitespace).reverse.dropWhile Char.isWhitespace).reverse⟩

/-- The contribution of one message to the prompt string: the body of the
role-dispatch chain over system, user and assistant; any other role
adds nothing. -/
def msgContribution (msg : Message) : String :=
  if msg.role = "system" then "System: " ++ msg.content ++ "\n\n"
  else if msg.role = "user" then "User: " ++ msg.content ++ "\n"
  else if msg.role = "assistant" then "Assistant: " ++ msg.content ++ "\n\n"
  else ""

/-- The prompt-building loop of `get_primer_response`: start from `""`,
`+=` each message's contribution in history order, then append the literal
cue `"Assistant:"`. -/
def formatPrompt (msgs : List Message) : String :=
  (msgs.foldl (fun prompt msg => prompt ++ msgContribution msg) "") ++ "Assistant:"

/-- The turn function `get_primer_response(user_prompt, history, model_name)` against global
state `llama_model`.  Returns the (reply, history) pair.  `model_name` is the
unused compatibility parameter. -/
def get_primer_response (user_prompt : String) (history : List Message)
    (model_name : Option String) (llama_model : Option Engine) :
    String × List Message :=
  match llama_model with
  | none =>
    ("Confused: Model not initialized. Please call initialize_model() first.",
     history)
  | some engine =>
    let messages_history := history ++ [{ role := "user", content := user_prompt }]
    let prompt := formatPrompt messages_history
    match engine prompt with
    | Except.error e => ("Confused: Error generating response: " ++ e, history)
    | Except.ok response =>
      match response.choices with
      | [] =>
        ("Confused: Error generating response: list index out of range", history)
      | choice :: _ =>
        let ai_response := pyStrip choice.text
        (ai_response,
         messages_history ++ [{ role := "assistant", content := ai_response }])

/-- The lifecycle exit `cleanup_model`: drop the handle if present; no-op otherwise.  Either way
the global ends up uninitialized. -/
def cleanup_model (llama_model : Option Engine) : Option Engine :=
  match llama_model with
  | some _ => none
  | none => none

/-- A stub engine that always succeeds with the canned text "Neutral: test.". -/
def stubEngine : Engine :=
  fun _ => Except.ok { choices := [{ text := "Neutral: test." }] }

/-- A stub engine that always raises with detail "boom". -/
def failEngine : Engine :=
  fun _ => Except.error "boom"

/-- A stub loader that always succeeds, producing `stubEngine`. -/
def okLoader : Loader :=
  fun _ => Except.ok stubEngine

/-- A stub loader that always raises with detail "corrupt model file". -/
def badLoader : Loader :=
  fun _ => Except.error "corrupt model file"

/-- The concatenation, in history order, of the prompt contribution of each
message. -/
def promptBody : List Message → String
  | [] => ""
  | msg :: rest => msgContribution msg ++ promptBody rest

/-- A message role the prompt formatter recognises. -/
def knownRole (msg : Message) : Bool :=
  msg.role == "system" || msg.role == "user" || msg.role == "assistant"

lemma foldl_contribution (msgs : List Message) (init : String) :
    msgs.foldl (fun prompt msg => prompt ++ msgContribution msg) init
      = init ++ promptBody msgs := by
  induction msgs generalizing init with
  | nil => simp [promptBody, String.append_empty]
  | cons m rest ih =>
    simp only [List.foldl_cons, promptBody, ih, String.append_assoc]

lemma formatPrompt_eq_body (msgs : List Message) :
    formatPrompt msgs = promptBody msgs ++ "Assistant:" := by
  rw [formatPrompt, foldl_contribution, String.empty_append]

lemma msgContribution_of_unknown (msg : Message) (h : knownRole msg = false) :
    msgContribution msg = "" := by
  rw [knownRole] at h
  simp only [Bool.or_eq_false_iff, beq_eq_false_iff_ne, ne_eq] at h
  rw [msgContribution, if_neg h.1.1, if_neg h.1.2, if_neg h.2]

lemma promptBody_filter (msgs : List Message) :
    promptBody msgs = promptBody (msgs.filter knownRole) := by
  induction msgs with
  | nil => rfl
  | cons m rest ih =>
    by_cases h : knownRole m = true
    · rw [List.filter_cons_of_pos h, promptBody, promptBody, ih]
    · rw [List.filter_cons_of_neg (by simpa using h), promptBody,
        msgContribution_of_unknown m (by simpa using h), String.empty_append, ih]

/-- C1: when the model handle exists and the generation call succeeds (the
engine returns a response with at least one choice), the returned history has
length `H.length + 2` and its first `H.length` entries are exactly `H`; the
argument `H` itself is a value and is returned as the untouched prefix, so the
caller sees no in-place mutation. -/
theorem respond_success_appends_two
    (U : String) (H : List Message) (mn : Option String) (engine : Engine)
    (resp : LlamaResponse) (c : LlamaChoice) (cs : List LlamaChoice)
    (hgen : engine (formatPrompt (H ++ [{ role := "user", content := U }]))
      = Except.ok resp)
    (hchoices : resp.choices = c :: cs) :
    (get_primer_response U H mn (some engine)).2.length = H.length + 2
    ∧ (get_primer_response U H mn (some engine)).2.take H.length = H := by
  rw [get_primer_response]
  simp only [hgen, hchoices]
  constructor
  · simp [List.length_append]
  · rw [List.append_assoc]
    exact List.take_left H _

/-- Witness for C1 at a concrete input: empty history, prompt "hi", an engine
that returns one choice. -/
theorem respond_success_appends_two_witness :
    (get_primer_response "hi" [] none (some stubEngine)).2.length
      = ([] : List Message).length + 2
    ∧ (get_primer_response "hi" [] none
        (some stubEngine)).2.take ([] : List Message).length = [] :=
  respond_success_appends_two "hi" [] none stubEngine
    { choices := [{ text := "Neutral: test." }] } { text := "Neutral: test." } []
    rfl rfl

/-- C2: prompt formatting is the order-preserving concatenation of a fixed
per-role piece for each message, followed by the literal cue "Assistant:";
on the concrete three-message history the prompt is exactly the expected
string. -/
theorem prompt_format_role_keyed :
    (∀ msgs : List Message, formatPrompt msgs = promptBody msgs ++ "Assistant:")
    ∧ formatPrompt
        [{ role := "system", content := "S" },
         { role := "user", content := "U1" },
         { role := "assistant", content := "A1" }]
      = "System: S\n\nUser: U1\nAssistant: A1\n\nAssistant:" :=
  ⟨formatPrompt_eq_body, by decide⟩

/-- C3: if the engine raises during generation, `get_primer_response` returns
the original history unchanged together with a reply equal to the sentinel
prefix "Confused: Error generating response:" followed by the detail; no
exception propagates (the function is total). -/
theorem respond_failure_rolls_back
    (U : String) (H : List Message) (mn : Option String) (engine : Engine)
    (e : String)
    (hgen : engine (formatPrompt (H ++ [{ role := "user", content := U }]))
      = Except.error e) :
    get_primer_response U H mn (some engine)
      = ("Confused: Error generating response: " ++ e, H)
    ∧ ∃ rest, "Confused: Error generating response: " ++ e
        = "Confused: Error generating response:" ++ rest := by
  constructor
  · rw [get_primer_response]
    simp only [hgen]
  · refine ⟨" " ++ e, ?_⟩
    have hsp : ("Confused: Error generating response: " : String)
        = "Confused: Error generating response:" ++ " " := by decide
    rw [hsp, String.append_assoc]

/-- Witness for C3 at a concrete input: empty history, an engine that raises
with detail "boom". -/
theorem respond_failure_rolls_back_witness :
    get_primer_response "hi" [] none (some failEngine)
      = ("Confused: Error generating response: " ++ "boom", [])
    ∧ ∃ rest, "Confused: Error generating response: " ++ "boom"
        = "Confused: Error generating response:" ++ rest :=
  respond_failure_rolls_back "hi" [] none failEngine "boom" rfl

/-- C4: with no model handle loaded, `get_primer_response` returns (without
raising) the fixed sentinel reply, which starts with "Confused:", and the
history unchanged. -/
theorem respond_uninitialized (U : String) (H : List Message)
    (mn : Option String) :
    get_primer_response U H mn none
      = ("Confused: Model not initialized. Please call initialize_model() first.",
         H)
    ∧ ∃ rest,
        ("Confused: Model not initialized. Please call initialize_model() first."
          : String) = "Confused:" ++ rest :=
  ⟨rfl,
   ⟨" Model not initialized. Please call initialize_model() first.", by decide⟩⟩

/-- C5: a second `initialize_model` call while a handle exists is a no-op
that reports success: whatever handle the first call installed stays, and the
second loader and path are never consulted. -/
theorem initialize_twice_noop
    (load1 load2 : Loader) (p1 p2 : String) (m : Engine)
    (hfirst : initialize_model load1 p1 none = (Except.ok (), some m)) :
    initialize_model load2 p2 (some m) = (Except.ok (), some m) := rfl

/-- Witness for C5 at a concrete input: the first load succeeds with
`stubEngine`; the second call uses a loader that would raise if consulted,
yet the handle from the first call survives. -/
theorem initialize_twice_noop_witness :
    initialize_model badLoader "other-model.gguf" (some stubEngine)
      = (Except.ok (), some stubEngine) :=
  initialize_twice_noop okLoader badLoader "model.gguf" "other-model.gguf"
    stubEngine rfl

/-- C6: if the loader raises, `initialize_model` re-raises the same error and
installs no handle: the global state is still uninitialized, exactly as
before the call. -/
theorem initialize_failure_no_handle
    (load : Loader) (p e : String) (hload : load p = Except.error e) :
    initialize_model load p none = (Except.error e, none) := by
  rw [initialize_model, hload]

/-- Witness for C6 at a concrete input: a loader that raises with detail
"corrupt model file". -/
theorem initialize_failure_no_handle_witness :
    initialize_model badLoader "model.gguf" none
      = (Except.error "corrupt model file", none) :=
  initialize_failure_no_handle badLoader "model.gguf" "corrupt model file" rfl

/-- C7: prompt formatting silently drops every message whose role is outside
the known set and formats the remaining messages in their original order:
the prompt of any history equals the prompt of its known-role sublist, and a
single unknown-role message inserted anywhere contributes nothing. -/
theorem prompt_format_drops_unknown_roles :
    (∀ msgs : List Message,
        formatPrompt msgs = formatPrompt (msgs.filter knownRole))
    ∧ ∀ (pre post : List Message) (m : Message), knownRole m = false →
        formatPrompt (pre ++ m :: post) = formatPrompt (pre ++ post) := by
  have hfilter : ∀ msgs : List Message,
      formatPrompt msgs = formatPrompt (msgs.filter knownRole) := by
    intro msgs
    rw [formatPrompt_eq_body, formatPrompt_eq_body, ← promptBody_filter]
  refine ⟨hfilter, ?_⟩
  intro pre post m hm
  rw [hfilter (pre ++ m :: post), hfilter (pre ++ post),
    List.filter_append, List.filter_append, List.filter_cons_of_neg (by simp [hm])]

/-- Witness for C7 at a concrete input: a message with role "tool" between a
system and a user message contributes nothing to the prompt. -/
theorem prompt_format_drops_unknown_roles_witness :
    formatPrompt
        ([{ role := "system", content := "S" }]
          ++ { role := "tool", content := "X" }
            :: [{ role := "user", content := "U" }])
      = formatPrompt
          ([{ role := "system", content := "S" }]
            ++ [{ role := "user", content := "U" }]) :=
  prompt_format_drops_unknown_roles.2
    [{ role := "system", content := "S" }]
    [{ role := "user", content := "U" }]
    { role := "tool", content := "X" } (by decide)

/-- C8: `cleanup_model` always leaves the global state uninitialized (it is a
no-op when already uninitialized), and a `get_primer_response` call after
cleanup behaves exactly as in the never-initialized case: same sentinel
reply, history unchanged. -/
theorem cleanup_then_respond (st : Option Engine) (U : String)
    (H : List Message) (mn : Option String) :
    cleanup_model st = none
    ∧ get_primer_response U H mn (cleanup_model st)
        = get_primer_response U H mn none
    ∧ get_primer_response U H mn (cleanup_model st)
        = ("Confused: Model not initialized. Please call initialize_model() first.",
           H) := by
  have h : cleanup_model st = none := by
    cases st <;> rfl
  refine ⟨h, by rw [h], ?_⟩
  rw [h]
  rfl

/-- C9 counterexample: the seed history is not a system prompt plus 5
user/assistant exchanges — that would be 11 messages, but
`INITIAL_MESSAGES_HISTORY` has 13 (the source ships 6 example exchanges). -/
theorem seed_history_not_five_exchanges :
    ¬ INITIAL_MESSAGES_HISTORY.length = 1 + 2 * 5 := by decide

/-- C9 (amended): the seed history is the fixed system prompt followed by 6
example user/assistant exchanges (13 messages), and calling
`get_primer_response` on it against a stub engine returning "Neutral: test."
yields exactly that text and a history of length original + 2. -/
theorem seed_history_and_stub_scenario :
    INITIAL_MESSAGES_HISTORY = SYSTEM_PROMPT :: EXAMPLE_INTERACTIONS
    ∧ EXAMPLE_INTERACTIONS.map Message.role
        = ["user", "assistant", "user", "assistant", "user", "assistant",
           "user", "assistant", "user", "assistant", "user", "assistant"]
    ∧ (get_primer_response "What is gravity?" INITIAL_MESSAGES_HISTORY none
        (some stubEngine)).1 = "Neutral: test."
    ∧ (get_primer_response "What is gravity?" INITIAL_MESSAGES_HISTORY none
        (some stubEngine)).2.length = INITIAL_MESSAGES_HISTORY.length + 2 := by
  refine ⟨rfl, by decide, by decide, by decide⟩

/-- C10: `get_primer_response` never reads its `model_name` argument: two
calls that differ only in `model_name` return the same (reply, history)
pair, for every prompt, history and model state. -/
theorem respond_ignores_model_name
    (U : String) (H : List Message) (st : Option Engine)
    (mn1 mn2 : Option String) :
    get_primer_response U H mn1 st = get_primer_response U H mn2 st := rfl


end LlamaChat
